import Mathlib

/-!
Verification development for the request-encoding and streaming-decoding core of the
`async-openai-wasm` client library.

The multipart form encoders, the string conversions and the `Default` instances are
embedded directly from `src/async-openai-wasm/src/types/impls.rs`.  The streaming
decoder, retry controller and configuration provider live in modules that are not part
of the included sources; those are modelled from the specification and are marked
`Modelled from the spec:` in their doc comments.  Rust strings are modelled as `String`
(or `List Char` where line processing needs it), byte buffers as `List Nat`, and the
ambient filesystem as a partial map from paths to file contents.
-/

namespace AsyncOpenAI

/-- Unified error taxonomy (spec section 4.6; `error.rs` is not among the included
sources, so the kinds are the spec's list). Only the payload needed by the claims is
kept: a diagnostic string. -/
inductive OpenAIError where
  | IOError (msg : String)
  | Configuration (msg : String)
  | Transport (msg : String)
  | Deserialization (msg : String)
  | ApiError (msg : String)
  | RetryExhausted (msg : String)
  | InvalidArgument (msg : String)
deriving DecidableEq, Repr

/-- One file part of a multipart form: the declared file name and the byte payload
(`reqwest::multipart::Part` built from a byte stream). -/
structure FilePart where
  fileName : String
  bytes : List Nat
deriving DecidableEq, Repr

/-- One named part of a multipart form: either a file part or an inline text part. -/
inductive FormPart where
  | filePart (name : String) (file : FilePart)
  | textPart (name : String) (value : String)
deriving DecidableEq, Repr

/-- The field name a part is attached under. -/
def FormPart.name : FormPart → String
  | .filePart n _ => n
  | .textPart n _ => n

/-- `reqwest::multipart::Form`, modelled as the ordered list of its parts (the order of
`part`/`text` calls is the wire order of the encoded form). -/
abbrev Form := List FormPart

/-- `reqwest::multipart::Form::new()`: the empty form. -/
def Form.new : Form := []

/-- `Form::part(name, part)`: append a file part. -/
def Form.part (f : Form) (n : String) (p : FilePart) : Form :=
  f ++ [FormPart.filePart n p]

/-- `Form::text(name, value)`: append a text part. -/
def Form.text (f : Form) (n v : String) : Form :=
  f ++ [FormPart.textPart n v]

/-- `InputSource` (crate type referenced by `impls.rs`): a file payload held as a
filesystem path, a shared byte buffer, or an owned byte vector. -/
inductive InputSource where
  | Path (path : String)
  | Bytes (filename : String) (bytes : List Nat)
  | VecU8 (filename : String) (vec : List Nat)
deriving DecidableEq, Repr

/-- `impl Default for InputSource` (impls.rs lines 113-122): the owned-buffer variant
with empty filename and empty byte vector. -/
instance : Inhabited InputSource := ⟨InputSource.VecU8 "" []⟩

/-- `Prompt` variants (crate type; `String`, `StringArray`, `IntegerArray` of `u16`,
`ArrayOfIntegerArray`). -/
inductive Prompt where
  | String (s : String)
  | StringArray (a : List String)
  | IntegerArray (a : List Nat)
  | ArrayOfIntegerArray (a : List (List Nat))
deriving DecidableEq, Repr

/-- `ModerationInput` variants. -/
inductive ModerationInput where
  | String (s : String)
  | StringArray (a : List String)
deriving DecidableEq, Repr

/-- `EmbeddingInput` variants (`IntegerArray` of `u32`). -/
inductive EmbeddingInput where
  | String (s : String)
  | StringArray (a : List String)
  | IntegerArray (a : List Nat)
  | ArrayOfIntegerArray (a : List (List Nat))
deriving DecidableEq, Repr

/-- `impl_default!(Prompt)` (impls.rs lines 99-109): default is the `String` variant
holding the empty string. -/
instance : Inhabited Prompt := ⟨Prompt.String ""⟩

/-- `impl_default!(ModerationInput)`. -/
instance : Inhabited ModerationInput := ⟨ModerationInput.String ""⟩

/-- `impl_default!(EmbeddingInput)`. -/
instance : Inhabited EmbeddingInput := ⟨EmbeddingInput.String ""⟩

/-- `ImageSize` with its `Display` rendering (impls.rs lines 154-168). -/
inductive ImageSize where
  | S256x256 | S512x512 | S1024x1024 | S1792x1024 | S1024x1792
deriving DecidableEq, Repr

def ImageSize.display : ImageSize → String
  | .S256x256 => "256x256"
  | .S512x512 => "512x512"
  | .S1024x1024 => "1024x1024"
  | .S1792x1024 => "1792x1024"
  | .S1024x1792 => "1024x1792"

/-- `DallE2ImageSize` with its `Display` rendering (impls.rs lines 170-182). -/
inductive DallE2ImageSize where
  | S256x256 | S512x512 | S1024x1024
deriving DecidableEq, Repr

def DallE2ImageSize.display : DallE2ImageSize → String
  | .S256x256 => "256x256"
  | .S512x512 => "512x512"
  | .S1024x1024 => "1024x1024"

/-- `ImageModel` with its `Display` rendering (impls.rs lines 184-196). -/
inductive ImageModel where
  | DallE2 | DallE3 | Other (other : String)
deriving DecidableEq, Repr

def ImageModel.display : ImageModel → String
  | .DallE2 => "dall-e-2"
  | .DallE3 => "dall-e-3"
  | .Other other => other

/-- `ResponseFormat` with its `Display` rendering (impls.rs lines 198-209). -/
inductive ResponseFormat where
  | Url | B64Json
deriving DecidableEq, Repr

def ResponseFormat.display : ResponseFormat → String
  | .Url => "url"
  | .B64Json => "b64_json"

/-- `AudioResponseFormat` with its `Display` rendering (impls.rs lines 211-225). -/
inductive AudioResponseFormat where
  | Json | Srt | Text | VerboseJson | Vtt
deriving DecidableEq, Repr

def AudioResponseFormat.display : AudioResponseFormat → String
  | .Json => "json"
  | .Srt => "srt"
  | .Text => "text"
  | .VerboseJson => "verbose_json"
  | .Vtt => "vtt"

/-- `TimestampGranularity` with its `Display` rendering (impls.rs lines 227-238). -/
inductive TimestampGranularity where
  | Word | Segment
deriving DecidableEq, Repr

def TimestampGranularity.display : TimestampGranularity → String
  | .Word => "word"
  | .Segment => "segment"

/-- An `f32` field enters a form only through its decimal `Display` rendering, so the
model keeps the rendered string (floating-point arithmetic itself is never used by the
encoders). -/
structure F32Repr where
  render : String
deriving DecidableEq, Repr

/-- `AudioInput`: wrapper around an `InputSource`. -/
structure AudioInput where
  source : InputSource
deriving DecidableEq, Repr

/-- `FileInput`: wrapper around an `InputSource`. -/
structure FileInput where
  source : InputSource
deriving DecidableEq, Repr

/-- `ImageInput`: wrapper around an `InputSource`. -/
structure ImageInput where
  source : InputSource
deriving DecidableEq, Repr

/-- `CreateTranscriptionRequest`: the fields read by its form encoder
(impls.rs lines 563-598), in declaration order. -/
structure CreateTranscriptionRequest where
  file : AudioInput
  model : String
  prompt : Option String
  response_format : Option AudioResponseFormat
  temperature : Option F32Repr
  language : Option String
  timestamp_granularities : Option (List TimestampGranularity)
deriving DecidableEq, Repr

/-- `CreateTranslationRequest`: the fields read by its form encoder
(impls.rs lines 600-624). -/
structure CreateTranslationRequest where
  file : AudioInput
  model : String
  prompt : Option String
  response_format : Option AudioResponseFormat
  temperature : Option F32Repr
deriving DecidableEq, Repr

/-- `CreateImageEditRequest`: the fields read by its form encoder
(impls.rs lines 626-666). `n` is a `u8` count modelled as `Nat`. -/
structure CreateImageEditRequest where
  image : ImageInput
  prompt : String
  mask : Option ImageInput
  model : Option ImageModel
  n : Option Nat
  size : Option DallE2ImageSize
  response_format : Option ResponseFormat
  user : Option String
deriving DecidableEq, Repr

/-- `CreateImageVariationRequest`: the fields read by its form encoder
(impls.rs lines 668-701). -/
structure CreateImageVariationRequest where
  image : ImageInput
  model : Option ImageModel
  n : Option Nat
  size : Option DallE2ImageSize
  response_format : Option ResponseFormat
  user : Option String
deriving DecidableEq, Repr

/-- `CreateFileRequest`: the fields read by its form encoder (impls.rs lines 703-714). -/
structure CreateFileRequest where
  file : FileInput
  purpose : String
deriving DecidableEq, Repr

/-- Modelled from the spec: `create_file_part` (in `src/util.rs`, absent from the
included sources) resolves an `InputSource` into a multipart file part.  A
filesystem-path source is read through the ambient filesystem `fs`; a missing or
unreadable path (`fs` returns `none`) fails with the `IO` error kind.  In-memory
sources never fail.  The declared file name of a path source is derived from the path. -/
def create_file_part (fs : String → Option (List Nat)) :
    InputSource → Except OpenAIError FilePart
  | InputSource.Path p =>
    match fs p with
    | some bytes => Except.ok ⟨p, bytes⟩
    | none => Except.error (OpenAIError.IOError p)
  | InputSource.Bytes filename bytes => Except.ok ⟨filename, bytes⟩
  | InputSource.VecU8 filename vec => Except.ok ⟨filename, vec⟩

/-- `async_convert::TryFrom<CreateTranscriptionRequest> for reqwest::multipart::Form`
(impls.rs lines 563-598): file part, then `model`, then each set optional field in
declaration order, with one `timestamp_granularities[]` part per list element. -/
def CreateTranscriptionRequest.tryIntoForm (fs : String → Option (List Nat))
    (request : CreateTranscriptionRequest) : Except OpenAIError Form := do
  let audio_part ← create_file_part fs request.file.source
  let form := (Form.new.part "file" audio_part).text "model" request.model
  let form := match request.prompt with
    | some prompt => form.text "prompt" prompt
    | none => form
  let form := match request.response_format with
    | some response_format => form.text "response_format" response_format.display
    | none => form
  let form := match request.temperature with
    | some temperature => form.text "temperature" temperature.render
    | none => form
  let form := match request.language with
    | some language => form.text "language" language
    | none => form
  let form := match request.timestamp_granularities with
    | some timestamp_granularities =>
      timestamp_granularities.foldl
        (fun f tg => f.text "timestamp_granularities[]" tg.display) form
    | none => form
  pure form

/-- `async_convert::TryFrom<CreateTranslationRequest> for reqwest::multipart::Form`
(impls.rs lines 600-624). -/
def CreateTranslationRequest.tryIntoForm (fs : String → Option (List Nat))
    (request : CreateTranslationRequest) : Except OpenAIError Form := do
  let audio_part ← create_file_part fs request.file.source
  let form := (Form.new.part "file" audio_part).text "model" request.model
  let form := match request.prompt with
    | some prompt => form.text "prompt" prompt
    | none => form
  let form := match request.response_format with
    | some response_format => form.text "response_format" response_format.display
    | none => form
  let form := match request.temperature with
    | some temperature => form.text "temperature" temperature.render
    | none => form
  pure form

/-- `async_convert::TryFrom<CreateImageEditRequest> for reqwest::multipart::Form`
(impls.rs lines 626-666). -/
def CreateImageEditRequest.tryIntoForm (fs : String → Option (List Nat))
    (request : CreateImageEditRequest) : Except OpenAIError Form := do
  let image_part ← create_file_part fs request.image.source
  let form := (Form.new.part "image" image_part).text "prompt" request.prompt
  let form ← match request.mask with
    | some mask => do
      let mask_part ← create_file_part fs mask.source
      pure (form.part "mask" mask_part)
    | none => pure form
  let form := match request.model with
    | some model => form.text "model" model.display
    | none => form
  let form := match request.n with
    | some n => form.text "n" (toString n)
    | none => form
  let form := match request.size with
    | some size => form.text "size" size.display
    | none => form
  let form := match request.response_format with
    | some response_format => form.text "response_format" response_format.display
    | none => form
  let form := match request.user with
    | some user => form.text "user" user
    | none => form
  pure form

/-- `async_convert::TryFrom<CreateImageVariationRequest> for reqwest::multipart::Form`
(impls.rs lines 668-701). -/
def CreateImageVariationRequest.tryIntoForm (fs : String → Option (List Nat))
    (request : CreateImageVariationRequest) : Except OpenAIError Form := do
  let image_part ← create_file_part fs request.image.source
  let form := Form.new.part "image" image_part
  let form := match request.model with
    | some model => form.text "model" model.display
    | none => form
  let form := match request.n with
    | some n => form.text "n" (toString n)
    | none => form
  let form := match request.size with
    | some size => form.text "size" size.display
    | none => form
  let form := match request.response_format with
    | some response_format => form.text "response_format" response_format.display
    | none => form
  let form := match request.user with
    | some user => form.text "user" user
    | none => form
  pure form

/-- `async_convert::TryFrom<CreateFileRequest> for reqwest::multipart::Form`
(impls.rs lines 703-714). -/
def CreateFileRequest.tryIntoForm (fs : String → Option (List Nat))
    (request : CreateFileRequest) : Except OpenAIError Form := do
  let file_part ← create_file_part fs request.file.source
  let form := (Form.new.part "file" file_part).text "purpose" request.purpose
  pure form

/-- `ChatCompletionFunctionCall` variants (match arms of impls.rs lines 385-393). -/
inductive ChatCompletionFunctionCall where
  | Auto
  | None
  | Function (name : String)
deriving DecidableEq, Repr

/-- `impl From<&str> for ChatCompletionFunctionCall` (impls.rs lines 385-393): `"auto"`
and `"none"` map to the two unit variants, anything else to a named function. -/
def ChatCompletionFunctionCall.fromStr (value : String) : ChatCompletionFunctionCall :=
  if value = "auto" then ChatCompletionFunctionCall.Auto
  else if value = "none" then ChatCompletionFunctionCall.None
  else ChatCompletionFunctionCall.Function value

/-- `FunctionName`: a wrapper around the function's name string. -/
structure FunctionName where
  name : String
deriving DecidableEq, Repr

/-- `impl From<&str> for FunctionName` (impls.rs lines 395-399). -/
def FunctionName.fromStr (value : String) : FunctionName := ⟨value⟩

/-- `ChatCompletionToolType` (only the `Function` discriminant exists). -/
inductive ChatCompletionToolType where
  | function
deriving DecidableEq, Repr

/-- `ChatCompletionNamedToolChoice`: tool type plus function name. -/
structure ChatCompletionNamedToolChoice where
  type : ChatCompletionToolType
  function : FunctionName
deriving DecidableEq, Repr

/-- `impl From<&str> for ChatCompletionNamedToolChoice` (impls.rs lines 407-414). -/
def ChatCompletionNamedToolChoice.fromStr (value : String) : ChatCompletionNamedToolChoice :=
  ⟨ChatCompletionToolType.function, FunctionName.fromStr value⟩

/-- `ChatCompletionToolChoiceOption` variants. -/
inductive ChatCompletionToolChoiceOption where
  | Auto
  | None
  | Named (choice : ChatCompletionNamedToolChoice)
deriving DecidableEq, Repr

/-- `impl From<&str> for ChatCompletionToolChoiceOption` (impls.rs lines 425-433). -/
def ChatCompletionToolChoiceOption.fromStr (value : String) : ChatCompletionToolChoiceOption :=
  if value = "auto" then ChatCompletionToolChoiceOption.Auto
  else if value = "none" then ChatCompletionToolChoiceOption.None
  else ChatCompletionToolChoiceOption.Named (ChatCompletionNamedToolChoice.fromStr value)

/-- The delta of one streamed chat-completion choice: an optional content fragment. -/
structure ChunkDelta where
  content : Option String
deriving DecidableEq, Repr

/-- One choice of a streamed chat-completion chunk. -/
structure ChunkChoice where
  delta : ChunkDelta
deriving DecidableEq, Repr

/-- One streamed chat-completion chunk: its (possibly empty) list of choices. -/
structure CreateChatCompletionStreamResponse where
  choices : List ChunkChoice
deriving DecidableEq, Repr

/-- The fixed event marker of the streaming wire format: each event line begins with
`data: ` (spec section 6). Lines are modelled as character lists. -/
def eventMarker : List Char := 'd' :: 'a' :: 't' :: 'a' :: ':' :: ' ' :: []

/-- The terminal sentinel token `[DONE]` of the streaming wire format (spec section 6). -/
def doneSentinel : List Char := '[' :: 'D' :: 'O' :: 'N' :: 'E' :: ']' :: []

/-- Whitespace trimming of a line remainder, on both ends. -/
def trimLine (l : List Char) : List Char :=
  ((l.dropWhile Char.isWhitespace).reverse.dropWhile Char.isWhitespace).reverse

/-- Modelled from the spec: the streaming decoder's per-line state machine (spec
section 4.5; the stream module is not among the included sources).  Each complete line
is inspected for the event marker; non-matching lines are discarded; a matching line
has the marker stripped and the remainder trimmed; the sentinel ends the sequence
cleanly; otherwise the remainder is deserialized with `parse` — success yields one Ok
chunk and decoding continues, failure yields one `Deserialization` error chunk and the
decoder stops (the malformed chunk is terminal). -/
def decodeSse {α : Type} (parse : List Char → Option α) :
    List (List Char) → List (Except OpenAIError α)
  | [] => []
  | l :: rest =>
    if eventMarker.isPrefixOf l then
      let payload := trimLine (l.drop eventMarker.length)
      if payload = doneSentinel then []
      else
        match parse payload with
        | some chunk => Except.ok chunk :: decodeSse parse rest
        | none => [Except.error (OpenAIError.Deserialization (String.mk payload))]
    else decodeSse parse rest

/-- The consumer loop body of the example web app
(src/examples/azure-openai-web-app/src/main.rs lines 36-53): an Ok chunk whose choices
list is empty is skipped by the caller (`continue`); otherwise the first choice's delta
content, when present, is appended to the accumulated string; an error chunk is only
logged. -/
def appStep (acc : String) (chunk : Except OpenAIError CreateChatCompletionStreamResponse) :
    String :=
  match chunk with
  | Except.ok response =>
    if response.choices.isEmpty then acc
    else
      match response.choices.head?.bind (fun choice => choice.delta.content) with
      | some content => acc ++ content
      | none => acc
  | Except.error _ => acc

/-- A network-visible event of the send pipeline. -/
inductive SendEvent where
  | network
deriving DecidableEq, Repr

/-- Modelled from the spec: the send pipeline of a multipart endpoint performs the
network call only after form encoding has succeeded (spec section 4.2: a failing file
source fails the encode step, before any network call).  The result is paired with the
trace of network events the pipeline performed. -/
def sendMultipart (enc : Except OpenAIError Form) :
    Except OpenAIError Form × List SendEvent :=
  match enc with
  | Except.error e => (Except.error e, [])
  | Except.ok form => (Except.ok form, [SendEvent.network])

/-- Classification of one failed invocation by the retry controller (spec section 4.3):
connection resets, timeouts, HTTP 429 and 5xx are retryable; other failures are
terminal. -/
inductive CallFailure where
  | retryable
  | terminal
deriving DecidableEq, Repr

/-- Result of the retry controller: the operation's value, a terminal failure surfaced
immediately, or `RetryExhausted` once the attempt budget is spent. -/
inductive RetryOutcome (α : Type) where
  | ok (v : α)
  | terminal
  | retryExhausted
deriving DecidableEq, Repr

/-- Modelled from the spec: the retry controller's loop (spec section 4.3; the backoff
module is not among the included sources).  `op i` is the outcome of the i-th
invocation of the wrapped operation; `remaining` is the remaining attempt budget.  The
backoff waits are pure delays with no effect on outcomes, so the model elides them; the
elapsed-time budget is abstracted into the attempt budget.  Returns the outcome paired
with the number of invocations performed. -/
def executeFrom {α : Type} (op : Nat → Except CallFailure α) (i : Nat) :
    Nat → RetryOutcome α × Nat
  | 0 => (RetryOutcome.retryExhausted, 0)
  | remaining + 1 =>
    match op i with
    | Except.ok v => (RetryOutcome.ok v, 1)
    | Except.error CallFailure.terminal => (RetryOutcome.terminal, 1)
    | Except.error CallFailure.retryable =>
      let r := executeFrom op (i + 1) remaining
      (r.1, r.2 + 1)

/-- Modelled from the spec: `execute(operation)` with a maximum attempt budget. -/
def execute {α : Type} (maxAttempts : Nat) (op : Nat → Except CallFailure α) :
    RetryOutcome α × Nat :=
  executeFrom op 0 maxAttempts

/-- The default-service configuration (spec section 3): base URL, bearer credential,
optional organization id; no API version. -/
structure OpenAIConfig where
  api_base : String
  api_key : String
  org_id : Option String
deriving DecidableEq, Repr

/-- `OpenAIConfig.url`: base URL followed by the endpoint path. -/
def OpenAIConfig.url (c : OpenAIConfig) (path : String) : String :=
  c.api_base ++ path

/-- Modelled from the spec: the default-service configuration emits no query
parameters — in particular never an API-version parameter (spec section 8). -/
def OpenAIConfig.query_params (_c : OpenAIConfig) : List (String × String) := []

/-- The raw field set of a gateway-style (Azure) configuration before validation:
the API version is still optional here. -/
structure AzureConfigBuilder where
  api_base : String
  api_key : String
  deployment_id : String
  api_version : Option String
deriving DecidableEq, Repr

/-- A validated gateway-style configuration: the API version is present. -/
structure AzureConfig where
  api_base : String
  api_key : String
  deployment_id : String
  api_version : String
deriving DecidableEq, Repr

/-- Modelled from the spec: constructing a gateway-style configuration without an API
version is a construction-time `Configuration` error (spec sections 4.1 and 8); with a
version present it yields the validated configuration. -/
def AzureConfigBuilder.build (b : AzureConfigBuilder) : Except OpenAIError AzureConfig :=
  match b.api_version with
  | none => Except.error (OpenAIError.Configuration "missing api version")
  | some v => Except.ok ⟨b.api_base, b.api_key, b.deployment_id, v⟩

/-- Modelled from the spec: the gateway-style URL inserts the deployment segment
(spec section 4.1). -/
def AzureConfig.url (c : AzureConfig) (path : String) : String :=
  c.api_base ++ "/openai/deployments/" ++ c.deployment_id ++ path

/-- Modelled from the spec: the gateway-style query parameters always include the API
version (spec section 4.1). -/
def AzureConfig.query_params (c : AzureConfig) : List (String × String) :=
  [("api-version", c.api_version)]

/-- The field-name contribution of an optional request field: its form field name when
set, nothing when unset. -/
def optName {α : Type} (n : String) : Option α → List String
  | some _ => [n]
  | none => []

/-- The form-part contribution of an optional text field: one text part when set,
nothing when unset. -/
def optTextPart (n : String) : Option String → List FormPart
  | some v => [FormPart.textPart n v]
  | none => []

/-- The form-part contribution of the optional `mask` image field of an image-edit
request, under filesystem `fs`. -/
def maskParts (fs : String → Option (List Nat)) : Option ImageInput → List FormPart
  | none => []
  | some mask =>
    match create_file_part fs mask.source with
    | Except.ok mask_part => [FormPart.filePart "mask" mask_part]
    | Except.error _ => []

/-- An image-variation request with every optional field unset and an in-memory image
source. -/
def imageVariationAllUnset : CreateImageVariationRequest :=
  ⟨⟨InputSource.VecU8 "img.png" []⟩, none, none, none, none, none⟩

/-- A concrete event-payload deserializer used to exercise the streaming decoder: it
accepts the single payload `e` as a chunk with no choices. -/
def emptyChunkParse : List Char → Option CreateChatCompletionStreamResponse :=
  fun l => if l = ['e'] then some ⟨[]⟩ else none

/-- A concrete event-payload deserializer over `Nat` chunks used to exercise the
streaming decoder: payload `1` is chunk 1, payload `2` is chunk 2, all else fails. -/
def sseNatParse : List Char → Option Nat :=
  fun l => if l = ['1'] then some 1 else if l = ['2'] then some 2 else none

/-- A filesystem with a single readable file `mask.png`. -/
def fsAll : String → Option (List Nat) :=
  fun p => if p = "mask.png" then some [7] else none

/-- A transcription request with every optional field set. -/
def transcriptionFull : CreateTranscriptionRequest :=
  ⟨⟨InputSource.VecU8 "a.mp3" [1]⟩, "whisper-1", some "p", some AudioResponseFormat.Json,
    some ⟨"0.5"⟩, some "en", some [TimestampGranularity.Word, TimestampGranularity.Segment]⟩

/-- The form `transcriptionFull` encodes to under `fsAll`. -/
def transcriptionFullForm : Form :=
  [FormPart.filePart "file" ⟨"a.mp3", [1]⟩, FormPart.textPart "model" "whisper-1",
    FormPart.textPart "prompt" "p", FormPart.textPart "response_format" "json",
    FormPart.textPart "temperature" "0.5", FormPart.textPart "language" "en",
    FormPart.textPart "timestamp_granularities[]" "word",
    FormPart.textPart "timestamp_granularities[]" "segment"]

/-- A translation request with every optional field set. -/
def translationFull : CreateTranslationRequest :=
  ⟨⟨InputSource.VecU8 "a.mp3" [1]⟩, "whisper-1", some "p", some AudioResponseFormat.Text,
    some ⟨"0"⟩⟩

/-- The form `translationFull` encodes to under `fsAll`. -/
def translationFullForm : Form :=
  [FormPart.filePart "file" ⟨"a.mp3", [1]⟩, FormPart.textPart "model" "whisper-1",
    FormPart.textPart "prompt" "p", FormPart.textPart "response_format" "text",
    FormPart.textPart "temperature" "0"]

/-- An image-edit request with every optional field set; the mask is a path source
resolved by `fsAll`. -/
def imageEditFull : CreateImageEditRequest :=
  ⟨⟨InputSource.VecU8 "i.png" [2]⟩, "a cat", some ⟨InputSource.Path "mask.png"⟩,
    some ImageModel.DallE2, some 2, some DallE2ImageSize.S256x256, some ResponseFormat.Url,
    some "u"⟩

/-- The form `imageEditFull` encodes to under `fsAll`. -/
def imageEditFullForm : Form :=
  [FormPart.filePart "image" ⟨"i.png", [2]⟩, FormPart.textPart "prompt" "a cat",
    FormPart.filePart "mask" ⟨"mask.png", [7]⟩, FormPart.textPart "model" "dall-e-2",
    FormPart.textPart "n" "2", FormPart.textPart "size" "256x256",
    FormPart.textPart "response_format" "url", FormPart.textPart "user" "u"]

/-- An image-variation request with every optional field set. -/
def imageVariationFull : CreateImageVariationRequest :=
  ⟨⟨InputSource.VecU8 "i.png" [2]⟩, some ImageModel.DallE3, some 1,
    some DallE2ImageSize.S512x512, some ResponseFormat.B64Json, some "u"⟩

/-- The form `imageVariationFull` encodes to under `fsAll`. -/
def imageVariationFullForm : Form :=
  [FormPart.filePart "image" ⟨"i.png", [2]⟩, FormPart.textPart "model" "dall-e-3",
    FormPart.textPart "n" "1", FormPart.textPart "size" "512x512",
    FormPart.textPart "response_format" "b64_json", FormPart.textPart "user" "u"]

/-- A file-upload request with an in-memory source. -/
def createFileReq : CreateFileRequest :=
  ⟨⟨InputSource.VecU8 "f.jsonl" [3]⟩, "fine-tune"⟩

/-- The form `createFileReq` encodes to under `fsAll`. -/
def createFileReqForm : Form :=
  [FormPart.filePart "file" ⟨"f.jsonl", [3]⟩, FormPart.textPart "purpose" "fine-tune"]

theorem except_ok_bind {ε α β : Type} (a : α) (f : α → Except ε β) :
    (Except.ok a : Except ε α) >>= f = f a := rfl

theorem except_error_bind {ε α β : Type} (e : ε) (f : α → Except ε β) :
    (Except.error e : Except ε α) >>= f = Except.error e := rfl

theorem FormPart.name_filePart (n : String) (f : FilePart) :
    FormPart.name (FormPart.filePart n f) = n := rfl

theorem FormPart.name_textPart (n v : String) :
    FormPart.name (FormPart.textPart n v) = n := rfl

theorem optTextPart_map_name (n : String) (o : Option String) :
    (optTextPart n o).map FormPart.name = optName n o := by
  cases o <;> rfl

theorem map_name_comp_textPart {β : Type} (g : β → String) (n : String) (xs : List β) :
    List.map (FormPart.name ∘ fun x => FormPart.textPart n (g x)) xs
      = List.replicate xs.length n := by
  induction xs with
  | nil => rfl
  | cons x xs ih => simp [Function.comp, FormPart.name, List.replicate_succ, ih]

theorem optName_of_map {α β : Type} (n : String) (f : α → β) (o : Option α) :
    optName n (o.map f) = optName n o := by
  cases o <;> rfl

theorem optTextPart_filter (n m : String) (o : Option String) :
    (optTextPart n o).filter (fun part => part.name == m)
      = if n == m then optTextPart n o else [] := by
  cases o <;> cases h : (n == m) <;> simp [optTextPart, FormPart.name, h]

theorem map_textPart_map_name {β : Type} (g : β → String) (n : String) (xs : List β) :
    (xs.map (fun x => FormPart.textPart n (g x))).map FormPart.name
      = xs.map (fun _ => n) := by
  induction xs with
  | nil => rfl
  | cons x xs ih => simp_all [FormPart.name]

theorem map_textPart_filter {β : Type} (g : β → String) (n m : String) (xs : List β) :
    (xs.map (fun x => FormPart.textPart n (g x))).filter (fun part => part.name == m)
      = if n == m then xs.map (fun x => FormPart.textPart n (g x)) else [] := by
  induction xs with
  | nil => simp
  | cons x xs ih => cases h : (n == m) <;> simp_all [FormPart.name]

theorem foldl_append_textPart {β : Type} (g : β → String) (n : String) (xs : List β)
    (form : Form) :
    xs.foldl (fun f x => f ++ [FormPart.textPart n (g x)]) form
      = form ++ xs.map (fun x => FormPart.textPart n (g x)) := by
  induction xs generalizing form with
  | nil => simp
  | cons x xs ih => simp [ih]

theorem transcription_tryIntoForm_error (fs : String → Option (List Nat))
    (request : CreateTranscriptionRequest) (e : OpenAIError)
    (h : create_file_part fs request.file.source = Except.error e) :
    request.tryIntoForm fs = Except.error e := by
  simp [CreateTranscriptionRequest.tryIntoForm, h]

theorem transcription_form (fs : String → Option (List Nat))
    (request : CreateTranscriptionRequest) (fp : FilePart)
    (h : create_file_part fs request.file.source = Except.ok fp) :
    request.tryIntoForm fs = Except.ok
      (FormPart.filePart "file" fp :: FormPart.textPart "model" request.model ::
        (optTextPart "prompt" request.prompt
          ++ optTextPart "response_format" (request.response_format.map AudioResponseFormat.display)
          ++ optTextPart "temperature" (request.temperature.map F32Repr.render)
          ++ optTextPart "language" request.language
          ++ (request.timestamp_granularities.getD []).map
              (fun tg => FormPart.textPart "timestamp_granularities[]" tg.display))) := by
  obtain ⟨file, model, prompt, response_format, temperature, language, tgs⟩ := request
  simp only at h
  cases prompt <;> cases response_format <;> cases temperature <;> cases language <;>
    cases tgs <;>
    simp [CreateTranscriptionRequest.tryIntoForm, h, except_ok_bind, Form.new, Form.part,
      Form.text, optTextPart, foldl_append_textPart]

theorem translation_tryIntoForm_error (fs : String → Option (List Nat))
    (request : CreateTranslationRequest) (e : OpenAIError)
    (h : create_file_part fs request.file.source = Except.error e) :
    request.tryIntoForm fs = Except.error e := by
  simp [CreateTranslationRequest.tryIntoForm, h]

theorem translation_form (fs : String → Option (List Nat))
    (request : CreateTranslationRequest) (fp : FilePart)
    (h : create_file_part fs request.file.source = Except.ok fp) :
    request.tryIntoForm fs = Except.ok
      (FormPart.filePart "file" fp :: FormPart.textPart "model" request.model ::
        (optTextPart "prompt" request.prompt
          ++ optTextPart "response_format" (request.response_format.map AudioResponseFormat.display)
          ++ optTextPart "temperature" (request.temperature.map F32Repr.render))) := by
  obtain ⟨file, model, prompt, response_format, temperature⟩ := request
  simp only at h
  cases prompt <;> cases response_format <;> cases temperature <;>
    simp [CreateTranslationRequest.tryIntoForm, h, except_ok_bind, Form.new, Form.part,
      Form.text, optTextPart]

theorem image_edit_tryIntoForm_error (fs : String → Option (List Nat))
    (request : CreateImageEditRequest) (e : OpenAIError)
    (h : create_file_part fs request.image.source = Except.error e) :
    request.tryIntoForm fs = Except.error e := by
  simp only [CreateImageEditRequest.tryIntoForm, h, except_error_bind]

theorem image_edit_tryIntoForm_mask_error (fs : String → Option (List Nat))
    (request : CreateImageEditRequest) (ip : FilePart) (mask : ImageInput) (e : OpenAIError)
    (h : create_file_part fs request.image.source = Except.ok ip)
    (hm : request.mask = some mask)
    (hme : create_file_part fs mask.source = Except.error e) :
    request.tryIntoForm fs = Except.error e := by
  simp [CreateImageEditRequest.tryIntoForm, h, hm, hme, except_ok_bind, except_error_bind]

theorem image_edit_form (fs : String → Option (List Nat))
    (request : CreateImageEditRequest) (fp : FilePart)
    (h : create_file_part fs request.image.source = Except.ok fp)
    (hm : ∀ mask, request.mask = some mask →
      ∃ mp, create_file_part fs mask.source = Except.ok mp) :
    request.tryIntoForm fs = Except.ok
      (FormPart.filePart "image" fp :: FormPart.textPart "prompt" request.prompt ::
        (maskParts fs request.mask
          ++ optTextPart "model" (request.model.map ImageModel.display)
          ++ optTextPart "n" (request.n.map toString)
          ++ optTextPart "size" (request.size.map DallE2ImageSize.display)
          ++ optTextPart "response_format" (request.response_format.map ResponseFormat.display)
          ++ optTextPart "user" request.user)) := by
  obtain ⟨image, prompt, mask, model, n, size, response_format, user⟩ := request
  simp only at h hm
  cases hmm : mask with
  | none =>
    subst hmm
    cases model <;> cases n <;> cases size <;> cases response_format <;> cases user <;>
      simp [CreateImageEditRequest.tryIntoForm, h, except_ok_bind, Form.new, Form.part,
        Form.text, optTextPart, maskParts]
  | some m =>
    subst hmm
    obtain ⟨mp, hmp⟩ := hm m rfl
    cases model <;> cases n <;> cases size <;> cases response_format <;> cases user <;>
      simp [CreateImageEditRequest.tryIntoForm, h, hmp, except_ok_bind, Form.new, Form.part,
        Form.text, optTextPart, maskParts]

theorem image_variation_tryIntoForm_error (fs : String → Option (List Nat))
    (request : CreateImageVariationRequest) (e : OpenAIError)
    (h : create_file_part fs request.image.source = Except.error e) :
    request.tryIntoForm fs = Except.error e := by
  simp [CreateImageVariationRequest.tryIntoForm, h]

theorem image_variation_form (fs : String → Option (List Nat))
    (request : CreateImageVariationRequest) (fp : FilePart)
    (h : create_file_part fs request.image.source = Except.ok fp) :
    request.tryIntoForm fs = Except.ok
      (FormPart.filePart "image" fp ::
        (optTextPart "model" (request.model.map ImageModel.display)
          ++ optTextPart "n" (request.n.map toString)
          ++ optTextPart "size" (request.size.map DallE2ImageSize.display)
          ++ optTextPart "response_format" (request.response_format.map ResponseFormat.display)
          ++ optTextPart "user" request.user)) := by
  obtain ⟨image, model, n, size, response_format, user⟩ := request
  simp only at h
  cases model <;> cases n <;> cases size <;> cases response_format <;> cases user <;>
    simp [CreateImageVariationRequest.tryIntoForm, h, except_ok_bind, Form.new, Form.part,
      Form.text, optTextPart]

theorem create_file_tryIntoForm_error (fs : String → Option (List Nat))
    (request : CreateFileRequest) (e : OpenAIError)
    (h : create_file_part fs request.file.source = Except.error e) :
    request.tryIntoForm fs = Except.error e := by
  simp [CreateFileRequest.tryIntoForm, h]

theorem create_file_form (fs : String → Option (List Nat))
    (request : CreateFileRequest) (fp : FilePart)
    (h : create_file_part fs request.file.source = Except.ok fp) :
    request.tryIntoForm fs = Except.ok
      [FormPart.filePart "file" fp, FormPart.textPart "purpose" request.purpose] := by
  simp [CreateFileRequest.tryIntoForm, h, except_ok_bind, Form.new, Form.part, Form.text]

theorem maskParts_map_name_ok (fs : String → Option (List Nat)) (mask : Option ImageInput)
    (h : ∀ m, mask = some m → ∃ mp, create_file_part fs m.source = Except.ok mp) :
    (maskParts fs mask).map FormPart.name = optName "mask" mask := by
  cases mask with
  | none => rfl
  | some m =>
    obtain ⟨mp, hmp⟩ := h m rfl
    simp [maskParts, hmp, FormPart.name, optName]

theorem maskParts_filter (fs : String → Option (List Nat)) (mask : Option ImageInput)
    (m : String) :
    (maskParts fs mask).filter (fun part => part.name == m)
      = if "mask" == m then maskParts fs mask else [] := by
  cases mask with
  | none => cases h : ("mask" == m) <;> simp [maskParts, h]
  | some mk =>
    cases hmp : create_file_part fs mk.source <;> cases h : ("mask" == m) <;>
      simp [maskParts, hmp, FormPart.name, h]

theorem image_edit_ok_inversion (fs : String → Option (List Nat))
    (request : CreateImageEditRequest) (form : Form)
    (h : request.tryIntoForm fs = Except.ok form) :
    ∃ ip, create_file_part fs request.image.source = Except.ok ip
      ∧ ∀ m, request.mask = some m → ∃ mp, create_file_part fs m.source = Except.ok mp := by
  cases hf : create_file_part fs request.image.source with
  | error e => rw [image_edit_tryIntoForm_error fs request e hf] at h; simp at h
  | ok ip =>
    refine ⟨ip, rfl, ?_⟩
    intro m hm
    cases hmp : create_file_part fs m.source with
    | error e =>
      rw [image_edit_tryIntoForm_mask_error fs request ip m e hf hm hmp] at h
      simp at h
    | ok mp => exact ⟨mp, rfl⟩

theorem trimLine_doneSentinel : trimLine doneSentinel = doneSentinel := by decide

theorem decodeSse_marker_cons {α : Type} (parse : List Char → Option α) (s : List Char)
    (rest : List (List Char)) :
    decodeSse parse ((eventMarker ++ s) :: rest) =
      if trimLine s = doneSentinel then []
      else
        match parse (trimLine s) with
        | some chunk => Except.ok chunk :: decodeSse parse rest
        | none => [Except.error (OpenAIError.Deserialization (String.mk (trimLine s)))] := by
  have hpre : eventMarker.isPrefixOf (eventMarker ++ s) = true :=
    List.isPrefixOf_iff_prefix.mpr (List.prefix_append _ _)
  simp [decodeSse, hpre, List.drop_left]

theorem decodeSse_wellFormed {α : Type} (parse : List Char → Option α)
    (good : List (List Char)) (cs : List α)
    (h : List.Forall₂ (fun s c => trimLine s ≠ doneSentinel ∧ parse (trimLine s) = some c)
      good cs) :
    decodeSse parse (good.map (fun s => eventMarker ++ s) ++ [eventMarker ++ doneSentinel])
      = cs.map Except.ok := by
  induction h with
  | nil => simp [decodeSse_marker_cons, trimLine_doneSentinel]
  | cons hd _tl ih =>
    obtain ⟨hne, hp⟩ := hd
    simp [decodeSse_marker_cons, hne, hp, ih]

theorem decodeSse_malformed {α : Type} (parse : List Char → Option α)
    (good : List (List Char)) (cs : List α) (bad : List Char) (rest : List (List Char))
    (h : List.Forall₂ (fun s c => trimLine s ≠ doneSentinel ∧ parse (trimLine s) = some c)
      good cs)
    (hbadNotDone : trimLine bad ≠ doneSentinel)
    (hbadParse : parse (trimLine bad) = none) :
    decodeSse parse (good.map (fun s => eventMarker ++ s) ++ (eventMarker ++ bad) :: rest)
      = cs.map Except.ok
        ++ [Except.error (OpenAIError.Deserialization (String.mk (trimLine bad)))] := by
  induction h with
  | nil => simp [decodeSse_marker_cons, hbadNotDone, hbadParse]
  | cons hd _tl ih =>
    obtain ⟨hne, hp⟩ := hd
    simp [decodeSse_marker_cons, hne, hp, ih]

theorem executeFrom_always_retryable {α : Type} (op : Nat → Except CallFailure α)
    (h : ∀ i, op i = Except.error CallFailure.retryable) :
    ∀ (n i : Nat), executeFrom op i n = (RetryOutcome.retryExhausted, n) := by
  intro n
  induction n with
  | zero => intro i; rfl
  | succ m ih => intro i; simp [executeFrom, h i, ih (i + 1)]

theorem executeFrom_succeeds {α : Type} (op : Nat → Except CallFailure α) (v : α) :
    ∀ (n i rem : Nat),
      (∀ j, j < n → op (i + j) = Except.error CallFailure.retryable) →
      op (i + n) = Except.ok v → n < rem →
      executeFrom op i rem = (RetryOutcome.ok v, n + 1) := by
  intro n
  induction n with
  | zero =>
    intro i rem _hr hok hlt
    obtain ⟨r, rfl⟩ : ∃ r, rem = r + 1 := ⟨rem - 1, by omega⟩
    simp only [Nat.add_zero] at hok
    simp [executeFrom, hok]
  | succ m ih =>
    intro i rem hr hok hlt
    obtain ⟨r, rfl⟩ : ∃ r, rem = r + 1 := ⟨rem - 1, by omega⟩
    have h0 : op i = Except.error CallFailure.retryable := by
      have := hr 0 (by omega)
      simpa using this
    have hok1 : op (i + 1 + m) = Except.ok v := by
      rwa [show i + 1 + m = i + (m + 1) by omega]
    have hr1 : ∀ j, j < m → op (i + 1 + j) = Except.error CallFailure.retryable := by
      intro j hj
      have := hr (j + 1) (by omega)
      rwa [show i + (j + 1) = i + 1 + j by omega] at this
    have hrec := ih (i + 1) r hr1 hok1 (by omega)
    simp [executeFrom, h0, hrec]

/-- C4: during streaming, a chunk whose choices list is empty is yielded to the
consumer as a valid (Ok) element of the chunk sequence — the decoder yields every
successfully parsed chunk regardless of its contents, never discarding or filtering —
and skipping such chunks is the caller's decision, as the example app's consumer loop
does by leaving its accumulator unchanged on an empty-choices chunk. -/
theorem stream_empty_choices_passthrough :
    (∀ (parse : List Char → Option CreateChatCompletionStreamResponse) (s : List Char)
        (rest : List (List Char)) (c : CreateChatCompletionStreamResponse),
      trimLine s ≠ doneSentinel → parse (trimLine s) = some c →
      decodeSse parse ((eventMarker ++ s) :: rest) = Except.ok c :: decodeSse parse rest)
    ∧ (∀ (acc : String) (c : CreateChatCompletionStreamResponse), c.choices = [] →
      appStep acc (Except.ok c) = acc) := by
  constructor
  · intro parse s rest c hne hp
    simp [decodeSse_marker_cons, hne, hp]
  · intro acc c hc
    simp [appStep, hc]

/-- Witness for C4: the parser `emptyChunkParse` accepts payload `e` as a chunk with no
choices; the decoder yields it as an Ok element, and the example consumer skips it. -/
theorem stream_empty_choices_passthrough_witness :
    trimLine ['e'] ≠ doneSentinel
    ∧ emptyChunkParse (trimLine ['e']) = some ⟨[]⟩
    ∧ decodeSse emptyChunkParse ((eventMarker ++ ['e']) :: [])
        = Except.ok ⟨[]⟩ :: decodeSse emptyChunkParse []
    ∧ (⟨[]⟩ : CreateChatCompletionStreamResponse).choices = []
    ∧ appStep "acc" (Except.ok ⟨[]⟩) = "acc" :=
  ⟨by decide, by decide,
    stream_empty_choices_passthrough.1 emptyChunkParse ['e'] [] ⟨[]⟩ (by decide) (by decide),
    rfl,
    stream_empty_choices_passthrough.2 "acc" ⟨[]⟩ rfl⟩

/-- C5: an input of well-formed event lines followed by the terminal sentinel decodes
to exactly those chunks, as Ok, in input order, and then ends; an input whose next
event line is malformed decodes to the preceding chunks, then exactly one
`Deserialization` error chunk, and nothing further (whatever follows the malformed
line is never decoded). -/
theorem stream_decode_sequence :
    (∀ (α : Type) (parse : List Char → Option α) (good : List (List Char)) (cs : List α),
      List.Forall₂ (fun s c => trimLine s ≠ doneSentinel ∧ parse (trimLine s) = some c)
        good cs →
      decodeSse parse (good.map (fun s => eventMarker ++ s) ++ [eventMarker ++ doneSentinel])
        = cs.map Except.ok)
    ∧ (∀ (α : Type) (parse : List Char → Option α) (good : List (List Char)) (cs : List α)
        (bad : List Char) (rest : List (List Char)),
      List.Forall₂ (fun s c => trimLine s ≠ doneSentinel ∧ parse (trimLine s) = some c)
        good cs →
      trimLine bad ≠ doneSentinel → parse (trimLine bad) = none →
      decodeSse parse (good.map (fun s => eventMarker ++ s) ++ (eventMarker ++ bad) :: rest)
        = cs.map Except.ok
          ++ [Except.error (OpenAIError.Deserialization (String.mk (trimLine bad)))]) :=
  ⟨fun _α parse good cs h => decodeSse_wellFormed parse good cs h,
    fun _α parse good cs bad rest h h1 h2 => decodeSse_malformed parse good cs bad rest h h1 h2⟩

/-- Witness for C5: two well-formed `Nat` event lines followed by the sentinel decode
to two Ok chunks; the same two lines followed by a malformed line decode to the two Ok
chunks and one error chunk, ignoring a trailing line. -/
theorem stream_decode_sequence_witness :
    List.Forall₂
      (fun s c => trimLine s ≠ doneSentinel ∧ sseNatParse (trimLine s) = some c)
      [['1'], ['2']] [1, 2]
    ∧ decodeSse sseNatParse
        ([['1'], ['2']].map (fun s => eventMarker ++ s) ++ [eventMarker ++ doneSentinel])
        = [1, 2].map Except.ok
    ∧ trimLine ['z'] ≠ doneSentinel
    ∧ sseNatParse (trimLine ['z']) = none
    ∧ decodeSse sseNatParse
        ([['1'], ['2']].map (fun s => eventMarker ++ s)
          ++ (eventMarker ++ ['z']) :: [eventMarker ++ ['1']])
        = [1, 2].map Except.ok
          ++ [Except.error (OpenAIError.Deserialization (String.mk (trimLine ['z'])))] := by
  have hF : List.Forall₂
      (fun s c => trimLine s ≠ doneSentinel ∧ sseNatParse (trimLine s) = some c)
      [['1'], ['2']] [1, 2] :=
    List.Forall₂.cons ⟨by decide, by decide⟩
      (List.Forall₂.cons ⟨by decide, by decide⟩ List.Forall₂.nil)
  exact ⟨hF, stream_decode_sequence.1 Nat sseNatParse [['1'], ['2']] [1, 2] hF,
    by decide, by decide,
    stream_decode_sequence.2 Nat sseNatParse [['1'], ['2']] [1, 2] ['z']
      [eventMarker ++ ['1']] hF (by decide) (by decide)⟩

/-- C7: an operation that fails retryably on each of its first `attempts - 1`
invocations and succeeds on the `attempts`-th makes `execute` return that success after
exactly `attempts` invocations (given the budget admits them); an operation that always
fails retryably makes `execute` return `RetryExhausted` after spending the whole
attempt budget. -/
theorem retry_execute_spec :
    (∀ (α : Type) (op : Nat → Except CallFailure α) (attempts budget : Nat) (v : α),
      0 < attempts → attempts ≤ budget →
      (∀ i, i < attempts - 1 → op i = Except.error CallFailure.retryable) →
      op (attempts - 1) = Except.ok v →
      execute budget op = (RetryOutcome.ok v, attempts))
    ∧ (∀ (α : Type) (op : Nat → Except CallFailure α) (budget : Nat),
      (∀ i, op i = Except.error CallFailure.retryable) →
      execute budget op = (RetryOutcome.retryExhausted, budget)) := by
  constructor
  · intro α op attempts budget v hpos hle hr hok
    obtain ⟨n, rfl⟩ : ∃ n, attempts = n + 1 := ⟨attempts - 1, by omega⟩
    have hr0 : ∀ j, j < n → op (0 + j) = Except.error CallFailure.retryable := by
      intro j hj
      have := hr j (by omega)
      simpa using this
    have hok0 : op (0 + n) = Except.ok v := by simpa using hok
    exact executeFrom_succeeds op v n 0 budget hr0 hok0 (by omega)
  · intro α op budget h
    exact executeFrom_always_retryable op h budget 0

/-- Witness for C7: an operation failing retryably on invocations 0 and 1 and
succeeding on invocation 2 yields its value after exactly 3 invocations under a budget
of 5; an operation that always fails retryably exhausts a budget of 4. -/
theorem retry_execute_spec_witness :
    (0 : Nat) < 3 ∧ (3 : Nat) ≤ 5
    ∧ (∀ i, i < 3 - 1 →
        (fun i => if i < 2 then (Except.error CallFailure.retryable : Except CallFailure Nat)
          else Except.ok 7) i = Except.error CallFailure.retryable)
    ∧ (fun i => if i < 2 then (Except.error CallFailure.retryable : Except CallFailure Nat)
        else Except.ok 7) (3 - 1) = Except.ok 7
    ∧ execute 5 (fun i => if i < 2 then (Except.error CallFailure.retryable : Except CallFailure Nat)
        else Except.ok 7) = (RetryOutcome.ok 7, 3)
    ∧ (∀ i : Nat, (fun _ => (Except.error CallFailure.retryable : Except CallFailure Nat)) i
        = Except.error CallFailure.retryable)
    ∧ execute 4 (fun _ => (Except.error CallFailure.retryable : Except CallFailure Nat))
        = (RetryOutcome.retryExhausted, 4) :=
  ⟨by decide, by decide,
    fun i hi => if_pos (by omega),
    rfl,
    retry_execute_spec.1 Nat _ 3 5 7 (by decide) (by decide)
      (fun i hi => if_pos (by omega)) rfl,
    fun i => rfl,
    retry_execute_spec.2 Nat _ 4 (fun i => rfl)⟩

/-- C8: building a gateway-style configuration without an API version fails with a
`Configuration` error (no URL is ever produced from it); a successfully built
gateway-style configuration always carries the API version in its query parameters;
and a default-service configuration builds its URL as base plus path with an empty
query-parameter list — never an API-version parameter. -/
theorem config_api_version_spec :
    (∀ b : AzureConfigBuilder, b.api_version = none →
      b.build = Except.error (OpenAIError.Configuration "missing api version"))
    ∧ (∀ (b : AzureConfigBuilder) (c : AzureConfig), b.build = Except.ok c →
      ("api-version", c.api_version) ∈ c.query_params)
    ∧ (∀ (c : OpenAIConfig) (path : String), c.url path = c.api_base ++ path)
    ∧ (∀ c : OpenAIConfig, c.query_params = []) := by
  refine ⟨?_, ?_, fun c path => rfl, fun c => rfl⟩
  · intro b hb
    simp [AzureConfigBuilder.build, hb]
  · intro b c h
    cases hb : b.api_version with
    | none => simp [AzureConfigBuilder.build, hb] at h
    | some v =>
      simp [AzureConfigBuilder.build, hb] at h
      subst h
      simp [AzureConfig.query_params]

/-- Witness for C8: a builder with no API version fails; one with version `2023-05-15`
builds a configuration whose query parameters carry that version. -/
theorem config_api_version_spec_witness :
    (AzureConfigBuilder.mk "https://r.example" "key" "dep" none).api_version = none
    ∧ (AzureConfigBuilder.mk "https://r.example" "key" "dep" none).build
        = Except.error (OpenAIError.Configuration "missing api version")
    ∧ (AzureConfigBuilder.mk "https://r.example" "key" "dep" (some "2023-05-15")).build
        = Except.ok (AzureConfig.mk "https://r.example" "key" "dep" "2023-05-15")
    ∧ ("api-version", (AzureConfig.mk "https://r.example" "key" "dep" "2023-05-15").api_version)
        ∈ (AzureConfig.mk "https://r.example" "key" "dep" "2023-05-15").query_params
    ∧ (OpenAIConfig.mk "https://api.example" "key" none).url "/v1/chat"
        = "https://api.example" ++ "/v1/chat"
    ∧ (OpenAIConfig.mk "https://api.example" "key" none).query_params = [] :=
  ⟨rfl,
    config_api_version_spec.1 (AzureConfigBuilder.mk "https://r.example" "key" "dep" none) rfl,
    rfl,
    config_api_version_spec.2.1 (AzureConfigBuilder.mk "https://r.example" "key" "dep" (some "2023-05-15"))
      (AzureConfig.mk "https://r.example" "key" "dep" "2023-05-15") rfl,
    config_api_version_spec.2.2.1 (OpenAIConfig.mk "https://api.example" "key" none) "/v1/chat",
    config_api_version_spec.2.2.2 (OpenAIConfig.mk "https://api.example" "key" none)⟩

/-- C9: converting a string maps exactly `auto` to the Auto variant, exactly `none` to
the None variant, and any other string to the named-function variant carrying that
string, for both `ChatCompletionFunctionCall` and `ChatCompletionToolChoiceOption`; no
other string yields Auto or None. -/
theorem from_str_auto_none_named :
    ChatCompletionFunctionCall.fromStr "auto" = ChatCompletionFunctionCall.Auto
    ∧ ChatCompletionFunctionCall.fromStr "none" = ChatCompletionFunctionCall.None
    ∧ (∀ s : String, s ≠ "auto" → s ≠ "none" →
      ChatCompletionFunctionCall.fromStr s = ChatCompletionFunctionCall.Function s)
    ∧ (∀ s : String,
      ChatCompletionFunctionCall.fromStr s = ChatCompletionFunctionCall.Auto → s = "auto")
    ∧ (∀ s : String,
      ChatCompletionFunctionCall.fromStr s = ChatCompletionFunctionCall.None → s = "none")
    ∧ ChatCompletionToolChoiceOption.fromStr "auto" = ChatCompletionToolChoiceOption.Auto
    ∧ ChatCompletionToolChoiceOption.fromStr "none" = ChatCompletionToolChoiceOption.None
    ∧ (∀ s : String, s ≠ "auto" → s ≠ "none" →
      ChatCompletionToolChoiceOption.fromStr s
        = ChatCompletionToolChoiceOption.Named ⟨ChatCompletionToolType.function, ⟨s⟩⟩)
    ∧ (∀ s : String,
      ChatCompletionToolChoiceOption.fromStr s = ChatCompletionToolChoiceOption.Auto →
        s = "auto")
    ∧ (∀ s : String,
      ChatCompletionToolChoiceOption.fromStr s = ChatCompletionToolChoiceOption.None →
        s = "none") := by
  refine ⟨by decide, by decide, ?_, ?_, ?_, by decide, by decide, ?_, ?_, ?_⟩
  · intro s h1 h2
    simp [ChatCompletionFunctionCall.fromStr, h1, h2]
  · intro s h
    by_cases h1 : s = "auto"
    · exact h1
    · by_cases h2 : s = "none" <;> simp [ChatCompletionFunctionCall.fromStr, h1, h2] at h
  · intro s h
    by_cases h1 : s = "auto" <;> by_cases h2 : s = "none" <;>
      simp [ChatCompletionFunctionCall.fromStr, h1, h2] at h
    · exact h2
  · intro s h1 h2
    simp [ChatCompletionToolChoiceOption.fromStr, ChatCompletionNamedToolChoice.fromStr,
      FunctionName.fromStr, h1, h2]
  · intro s h
    by_cases h1 : s = "auto"
    · exact h1
    · by_cases h2 : s = "none" <;> simp [ChatCompletionToolChoiceOption.fromStr, h1, h2] at h
  · intro s h
    by_cases h1 : s = "auto" <;> by_cases h2 : s = "none" <;>
      simp [ChatCompletionToolChoiceOption.fromStr, h1, h2] at h
    · exact h2

/-- Witness for C9: the string `get_weather` (neither `auto` nor `none`) converts to
the named-function variants. -/
theorem from_str_auto_none_named_witness :
    ("get_weather" : String) ≠ "auto" ∧ ("get_weather" : String) ≠ "none"
    ∧ ChatCompletionFunctionCall.fromStr "get_weather"
        = ChatCompletionFunctionCall.Function "get_weather"
    ∧ ChatCompletionToolChoiceOption.fromStr "get_weather"
        = ChatCompletionToolChoiceOption.Named
            ⟨ChatCompletionToolType.function, ⟨"get_weather"⟩⟩ :=
  ⟨by decide, by decide,
    from_str_auto_none_named.2.2.1 "get_weather" (by decide) (by decide),
    from_str_auto_none_named.2.2.2.2.2.2.2.1 "get_weather" (by decide) (by decide)⟩

/-- C10: the `Default` values of the public input types are the empty `String`
variants, and the default `InputSource` is the owned-buffer `VecU8` variant with empty
filename and empty bytes — not a filesystem path. -/
theorem default_values_empty :
    (default : Prompt) = Prompt.String ""
    ∧ (default : ModerationInput) = ModerationInput.String ""
    ∧ (default : EmbeddingInput) = EmbeddingInput.String ""
    ∧ (default : InputSource) = InputSource.VecU8 "" [] :=
  ⟨rfl, rfl, rfl, rfl⟩

/-- C1: every successfully assembled multipart form has the file/image part first and
then the remaining fields exactly in the endpoint's declaration order, with unset
optional fields contributing nothing and `timestamp_granularities` contributing one
part per element. -/
theorem multipart_field_order :
    (∀ (fs : String → Option (List Nat)) (request : CreateTranscriptionRequest) (form : Form),
      request.tryIntoForm fs = Except.ok form →
      form.map FormPart.name
        = "file" :: "model" ::
          (optName "prompt" request.prompt ++ optName "response_format" request.response_format
            ++ optName "temperature" request.temperature ++ optName "language" request.language
            ++ (request.timestamp_granularities.getD []).map
                (fun _ => "timestamp_granularities[]")))
    ∧ (∀ (fs : String → Option (List Nat)) (request : CreateTranslationRequest) (form : Form),
      request.tryIntoForm fs = Except.ok form →
      form.map FormPart.name
        = "file" :: "model" ::
          (optName "prompt" request.prompt ++ optName "response_format" request.response_format
            ++ optName "temperature" request.temperature))
    ∧ (∀ (fs : String → Option (List Nat)) (request : CreateImageEditRequest) (form : Form),
      request.tryIntoForm fs = Except.ok form →
      form.map FormPart.name
        = "image" :: "prompt" ::
          (optName "mask" request.mask ++ optName "model" request.model
            ++ optName "n" request.n ++ optName "size" request.size
            ++ optName "response_format" request.response_format
            ++ optName "user" request.user))
    ∧ (∀ (fs : String → Option (List Nat)) (request : CreateImageVariationRequest) (form : Form),
      request.tryIntoForm fs = Except.ok form →
      form.map FormPart.name
        = "image" ::
          (optName "model" request.model ++ optName "n" request.n
            ++ optName "size" request.size
            ++ optName "response_format" request.response_format
            ++ optName "user" request.user))
    ∧ (∀ (fs : String → Option (List Nat)) (request : CreateFileRequest) (form : Form),
      request.tryIntoForm fs = Except.ok form →
      form.map FormPart.name = ["file", "purpose"]) := by
  refine ⟨?_, ?_, ?_, ?_, ?_⟩
  · intro fs request form h
    cases hf : create_file_part fs request.file.source with
    | error e =>
      rw [transcription_tryIntoForm_error fs request e hf] at h
      exact absurd h (by simp)
    | ok fp =>
      rw [transcription_form fs request fp hf, Except.ok.injEq] at h
      subst h
      simp [optTextPart_map_name, optName_of_map, map_name_comp_textPart,
        FormPart.name_filePart, FormPart.name_textPart]
  · intro fs request form h
    cases hf : create_file_part fs request.file.source with
    | error e =>
      rw [translation_tryIntoForm_error fs request e hf] at h
      exact absurd h (by simp)
    | ok fp =>
      rw [translation_form fs request fp hf, Except.ok.injEq] at h
      subst h
      simp [optTextPart_map_name, optName_of_map, FormPart.name_filePart,
        FormPart.name_textPart]
  · intro fs request form h
    obtain ⟨ip, hip, hmask⟩ := image_edit_ok_inversion fs request form h
    rw [image_edit_form fs request ip hip hmask, Except.ok.injEq] at h
    subst h
    simp [optTextPart_map_name, optName_of_map, maskParts_map_name_ok fs request.mask hmask,
      FormPart.name_filePart, FormPart.name_textPart]
  · intro fs request form h
    cases hf : create_file_part fs request.image.source with
    | error e =>
      rw [image_variation_tryIntoForm_error fs request e hf] at h
      exact absurd h (by simp)
    | ok fp =>
      rw [image_variation_form fs request fp hf, Except.ok.injEq] at h
      subst h
      simp [optTextPart_map_name, optName_of_map, FormPart.name_filePart,
        FormPart.name_textPart]
  · intro fs request form h
    cases hf : create_file_part fs request.file.source with
    | error e =>
      rw [create_file_tryIntoForm_error fs request e hf] at h
      exact absurd h (by simp)
    | ok fp =>
      rw [create_file_form fs request fp hf, Except.ok.injEq] at h
      subst h
      simp [FormPart.name_filePart, FormPart.name_textPart]

/-- Witness for C1: each of the five encoders applied to a fully-populated concrete
request assembles its declared field order. -/
theorem multipart_field_order_witness :
    transcriptionFull.tryIntoForm fsAll = Except.ok transcriptionFullForm
    ∧ transcriptionFullForm.map FormPart.name
        = "file" :: "model" ::
          (optName "prompt" transcriptionFull.prompt
            ++ optName "response_format" transcriptionFull.response_format
            ++ optName "temperature" transcriptionFull.temperature
            ++ optName "language" transcriptionFull.language
            ++ (transcriptionFull.timestamp_granularities.getD []).map
                (fun _ => "timestamp_granularities[]"))
    ∧ translationFull.tryIntoForm fsAll = Except.ok translationFullForm
    ∧ translationFullForm.map FormPart.name
        = "file" :: "model" ::
          (optName "prompt" translationFull.prompt
            ++ optName "response_format" translationFull.response_format
            ++ optName "temperature" translationFull.temperature)
    ∧ imageEditFull.tryIntoForm fsAll = Except.ok imageEditFullForm
    ∧ imageEditFullForm.map FormPart.name
        = "image" :: "prompt" ::
          (optName "mask" imageEditFull.mask ++ optName "model" imageEditFull.model
            ++ optName "n" imageEditFull.n ++ optName "size" imageEditFull.size
            ++ optName "response_format" imageEditFull.response_format
            ++ optName "user" imageEditFull.user)
    ∧ imageVariationFull.tryIntoForm fsAll = Except.ok imageVariationFullForm
    ∧ imageVariationFullForm.map FormPart.name
        = "image" ::
          (optName "model" imageVariationFull.model ++ optName "n" imageVariationFull.n
            ++ optName "size" imageVariationFull.size
            ++ optName "response_format" imageVariationFull.response_format
            ++ optName "user" imageVariationFull.user)
    ∧ createFileReq.tryIntoForm fsAll = Except.ok createFileReqForm
    ∧ createFileReqForm.map FormPart.name = ["file", "purpose"] :=
  ⟨rfl, multipart_field_order.1 fsAll transcriptionFull transcriptionFullForm rfl,
    rfl, multipart_field_order.2.1 fsAll translationFull translationFullForm rfl,
    rfl, multipart_field_order.2.2.1 fsAll imageEditFull imageEditFullForm rfl,
    rfl,
    multipart_field_order.2.2.2.1 fsAll imageVariationFull imageVariationFullForm rfl,
    rfl, multipart_field_order.2.2.2.2 fsAll createFileReq createFileReqForm rfl⟩

/-- Counterexample to C2 as stated: an image-variation request with every optional
field unset encodes successfully to a form whose only part is the image file part, so
the form contains neither a `model` nor a `purpose` text field. -/
theorem multipart_model_or_purpose_counterexample :
    imageVariationAllUnset.tryIntoForm (fun _ => none)
        = Except.ok [FormPart.filePart "image" ⟨"img.png", []⟩]
    ∧ List.countP (fun part => part.name == "model" || part.name == "purpose")
        [FormPart.filePart "image" ⟨"img.png", []⟩] = 0 := by
  exact ⟨rfl, by decide⟩

/-- C2 (amended): transcription and translation forms always carry the `model` text
field and file-upload forms the `purpose` text field; image-edit and image-variation
forms carry a `model` text part exactly when the request's optional model is set (and
never a `purpose` part), so they may contain neither. -/
theorem multipart_model_or_purpose_amended :
    (∀ (fs : String → Option (List Nat)) (request : CreateTranscriptionRequest) (form : Form),
      request.tryIntoForm fs = Except.ok form →
      FormPart.textPart "model" request.model ∈ form)
    ∧ (∀ (fs : String → Option (List Nat)) (request : CreateTranslationRequest) (form : Form),
      request.tryIntoForm fs = Except.ok form →
      FormPart.textPart "model" request.model ∈ form)
    ∧ (∀ (fs : String → Option (List Nat)) (request : CreateFileRequest) (form : Form),
      request.tryIntoForm fs = Except.ok form →
      FormPart.textPart "purpose" request.purpose ∈ form)
    ∧ (∀ (fs : String → Option (List Nat)) (request : CreateImageEditRequest) (form : Form),
      request.tryIntoForm fs = Except.ok form →
      form.filter (fun part => part.name == "model")
          = optTextPart "model" (request.model.map ImageModel.display)
        ∧ form.filter (fun part => part.name == "purpose") = [])
    ∧ (∀ (fs : String → Option (List Nat)) (request : CreateImageVariationRequest) (form : Form),
      request.tryIntoForm fs = Except.ok form →
      form.filter (fun part => part.name == "model")
          = optTextPart "model" (request.model.map ImageModel.display)
        ∧ form.filter (fun part => part.name == "purpose") = []) := by
  refine ⟨?_, ?_, ?_, ?_, ?_⟩
  · intro fs request form h
    cases hf : create_file_part fs request.file.source with
    | error e =>
      rw [transcription_tryIntoForm_error fs request e hf] at h
      exact absurd h (by simp)
    | ok fp =>
      rw [transcription_form fs request fp hf, Except.ok.injEq] at h
      subst h
      simp
  · intro fs request form h
    cases hf : create_file_part fs request.file.source with
    | error e =>
      rw [translation_tryIntoForm_error fs request e hf] at h
      exact absurd h (by simp)
    | ok fp =>
      rw [translation_form fs request fp hf, Except.ok.injEq] at h
      subst h
      simp
  · intro fs request form h
    cases hf : create_file_part fs request.file.source with
    | error e =>
      rw [create_file_tryIntoForm_error fs request e hf] at h
      exact absurd h (by simp)
    | ok fp =>
      rw [create_file_form fs request fp hf, Except.ok.injEq] at h
      subst h
      simp
  · intro fs request form h
    obtain ⟨ip, hip, hmask⟩ := image_edit_ok_inversion fs request form h
    rw [image_edit_form fs request ip hip hmask, Except.ok.injEq] at h
    subst h
    constructor <;>
      simp [List.filter_append, optTextPart_filter, map_textPart_filter, maskParts_filter,
        FormPart.name_filePart, FormPart.name_textPart]
  · intro fs request form h
    cases hf : create_file_part fs request.image.source with
    | error e =>
      rw [image_variation_tryIntoForm_error fs request e hf] at h
      exact absurd h (by simp)
    | ok fp =>
      rw [image_variation_form fs request fp hf, Except.ok.injEq] at h
      subst h
      constructor <;>
        simp [List.filter_append, optTextPart_filter, map_textPart_filter,
          FormPart.name_filePart, FormPart.name_textPart]

/-- Witness for C2 (amended): concrete requests through all five encoders. -/
theorem multipart_model_or_purpose_amended_witness :
    FormPart.textPart "model" transcriptionFull.model ∈ transcriptionFullForm
    ∧ FormPart.textPart "model" translationFull.model ∈ translationFullForm
    ∧ FormPart.textPart "purpose" createFileReq.purpose ∈ createFileReqForm
    ∧ imageEditFullForm.filter (fun part => part.name == "model")
        = optTextPart "model" (imageEditFull.model.map ImageModel.display)
    ∧ imageVariationFullForm.filter (fun part => part.name == "model")
        = optTextPart "model" (imageVariationFull.model.map ImageModel.display) :=
  ⟨multipart_model_or_purpose_amended.1 fsAll transcriptionFull transcriptionFullForm rfl,
    multipart_model_or_purpose_amended.2.1 fsAll translationFull translationFullForm rfl,
    multipart_model_or_purpose_amended.2.2.1 fsAll createFileReq createFileReqForm rfl,
    (multipart_model_or_purpose_amended.2.2.2.1 fsAll imageEditFull imageEditFullForm
      rfl).1,
    (multipart_model_or_purpose_amended.2.2.2.2 fsAll imageVariationFull imageVariationFullForm
      rfl).1⟩

/-- C3: in every multipart form, each optional field contributes a part exactly when
set — the part carrying the field's rendered value — and `timestamp_granularities`
contributes one `timestamp_granularities[]` part per list element (the optional mask
of an image edit contributes its file part exactly when set). -/
theorem multipart_optional_fields :
    (∀ (fs : String → Option (List Nat)) (request : CreateTranscriptionRequest) (form : Form),
      request.tryIntoForm fs = Except.ok form →
      form.filter (fun part => part.name == "prompt") = optTextPart "prompt" request.prompt
        ∧ form.filter (fun part => part.name == "response_format")
            = optTextPart "response_format"
                (request.response_format.map AudioResponseFormat.display)
        ∧ form.filter (fun part => part.name == "temperature")
            = optTextPart "temperature" (request.temperature.map F32Repr.render)
        ∧ form.filter (fun part => part.name == "language")
            = optTextPart "language" request.language
        ∧ form.filter (fun part => part.name == "timestamp_granularities[]")
            = (request.timestamp_granularities.getD []).map
                (fun tg => FormPart.textPart "timestamp_granularities[]" tg.display))
    ∧ (∀ (fs : String → Option (List Nat)) (request : CreateTranslationRequest) (form : Form),
      request.tryIntoForm fs = Except.ok form →
      form.filter (fun part => part.name == "prompt") = optTextPart "prompt" request.prompt
        ∧ form.filter (fun part => part.name == "response_format")
            = optTextPart "response_format"
                (request.response_format.map AudioResponseFormat.display)
        ∧ form.filter (fun part => part.name == "temperature")
            = optTextPart "temperature" (request.temperature.map F32Repr.render))
    ∧ (∀ (fs : String → Option (List Nat)) (request : CreateImageEditRequest) (form : Form),
      request.tryIntoForm fs = Except.ok form →
      (form.filter (fun part => part.name == "mask")).map FormPart.name
            = optName "mask" request.mask
        ∧ form.filter (fun part => part.name == "model")
            = optTextPart "model" (request.model.map ImageModel.display)
        ∧ form.filter (fun part => part.name == "n")
            = optTextPart "n" (request.n.map toString)
        ∧ form.filter (fun part => part.name == "size")
            = optTextPart "size" (request.size.map DallE2ImageSize.display)
        ∧ form.filter (fun part => part.name == "response_format")
            = optTextPart "response_format" (request.response_format.map ResponseFormat.display)
        ∧ form.filter (fun part => part.name == "user") = optTextPart "user" request.user)
    ∧ (∀ (fs : String → Option (List Nat)) (request : CreateImageVariationRequest) (form : Form),
      request.tryIntoForm fs = Except.ok form →
      form.filter (fun part => part.name == "model")
            = optTextPart "model" (request.model.map ImageModel.display)
        ∧ form.filter (fun part => part.name == "n")
            = optTextPart "n" (request.n.map toString)
        ∧ form.filter (fun part => part.name == "size")
            = optTextPart "size" (request.size.map DallE2ImageSize.display)
        ∧ form.filter (fun part => part.name == "response_format")
            = optTextPart "response_format" (request.response_format.map ResponseFormat.display)
        ∧ form.filter (fun part => part.name == "user") = optTextPart "user" request.user) := by
  refine ⟨?_, ?_, ?_, ?_⟩
  · intro fs request form h
    cases hf : create_file_part fs request.file.source with
    | error e =>
      rw [transcription_tryIntoForm_error fs request e hf] at h
      exact absurd h (by simp)
    | ok fp =>
      rw [transcription_form fs request fp hf, Except.ok.injEq] at h
      subst h
      refine ⟨?_, ?_, ?_, ?_, ?_⟩ <;>
        simp [List.filter_append, optTextPart_filter, map_textPart_filter,
          FormPart.name_filePart, FormPart.name_textPart]
  · intro fs request form h
    cases hf : create_file_part fs request.file.source with
    | error e =>
      rw [translation_tryIntoForm_error fs request e hf] at h
      exact absurd h (by simp)
    | ok fp =>
      rw [translation_form fs request fp hf, Except.ok.injEq] at h
      subst h
      refine ⟨?_, ?_, ?_⟩ <;>
        simp [List.filter_append, optTextPart_filter, map_textPart_filter,
          FormPart.name_filePart, FormPart.name_textPart]
  · intro fs request form h
    obtain ⟨ip, hip, hmask⟩ := image_edit_ok_inversion fs request form h
    rw [image_edit_form fs request ip hip hmask, Except.ok.injEq] at h
    subst h
    refine ⟨?_, ?_, ?_, ?_, ?_, ?_⟩ <;>
      simp [List.filter_append, optTextPart_filter, map_textPart_filter, maskParts_filter,
        maskParts_map_name_ok fs request.mask hmask, FormPart.name_filePart,
        FormPart.name_textPart]
  · intro fs request form h
    cases hf : create_file_part fs request.image.source with
    | error e =>
      rw [image_variation_tryIntoForm_error fs request e hf] at h
      exact absurd h (by simp)
    | ok fp =>
      rw [image_variation_form fs request fp hf, Except.ok.injEq] at h
      subst h
      refine ⟨?_, ?_, ?_, ?_, ?_⟩ <;>
        simp [List.filter_append, optTextPart_filter, map_textPart_filter,
          FormPart.name_filePart, FormPart.name_textPart]

/-- Witness for C3: the fully-populated transcription and image-edit requests. -/
theorem multipart_optional_fields_witness :
    transcriptionFullForm.filter (fun part => part.name == "prompt")
        = optTextPart "prompt" transcriptionFull.prompt
    ∧ transcriptionFullForm.filter (fun part => part.name == "timestamp_granularities[]")
        = (transcriptionFull.timestamp_granularities.getD []).map
            (fun tg => FormPart.textPart "timestamp_granularities[]" tg.display)
    ∧ (imageEditFullForm.filter (fun part => part.name == "mask")).map FormPart.name
        = optName "mask" imageEditFull.mask
    ∧ imageEditFullForm.filter (fun part => part.name == "user")
        = optTextPart "user" imageEditFull.user :=
  ⟨(multipart_optional_fields.1 fsAll transcriptionFull transcriptionFullForm rfl).1,
    (multipart_optional_fields.1 fsAll transcriptionFull transcriptionFullForm
      rfl).2.2.2.2,
    (multipart_optional_fields.2.2.1 fsAll imageEditFull imageEditFullForm rfl).1,
    (multipart_optional_fields.2.2.1 fsAll imageEditFull imageEditFullForm
      rfl).2.2.2.2.2⟩

/-- C6: a multipart request whose file (or image, or mask) source is a filesystem path
the filesystem cannot provide fails to encode with an `IO` error, and the send
pipeline performs no network event when encoding has failed — the failure precedes any
network call. -/
theorem multipart_io_error_before_network :
    (∀ (fs : String → Option (List Nat)) (p : String) (request : CreateTranscriptionRequest),
      request.file.source = InputSource.Path p → fs p = none →
      request.tryIntoForm fs = Except.error (OpenAIError.IOError p))
    ∧ (∀ (fs : String → Option (List Nat)) (p : String) (request : CreateTranslationRequest),
      request.file.source = InputSource.Path p → fs p = none →
      request.tryIntoForm fs = Except.error (OpenAIError.IOError p))
    ∧ (∀ (fs : String → Option (List Nat)) (p : String) (request : CreateFileRequest),
      request.file.source = InputSource.Path p → fs p = none →
      request.tryIntoForm fs = Except.error (OpenAIError.IOError p))
    ∧ (∀ (fs : String → Option (List Nat)) (p : String) (request : CreateImageVariationRequest),
      request.image.source = InputSource.Path p → fs p = none →
      request.tryIntoForm fs = Except.error (OpenAIError.IOError p))
    ∧ (∀ (fs : String → Option (List Nat)) (p : String) (request : CreateImageEditRequest),
      request.image.source = InputSource.Path p → fs p = none →
      request.tryIntoForm fs = Except.error (OpenAIError.IOError p))
    ∧ (∀ (fs : String → Option (List Nat)) (p : String) (request : CreateImageEditRequest)
        (mask : ImageInput) (ip : FilePart),
      create_file_part fs request.image.source = Except.ok ip →
      request.mask = some mask → mask.source = InputSource.Path p → fs p = none →
      request.tryIntoForm fs = Except.error (OpenAIError.IOError p))
    ∧ (∀ e : OpenAIError, sendMultipart (Except.error e) = (Except.error e, [])) := by
  refine ⟨?_, ?_, ?_, ?_, ?_, ?_, fun e => rfl⟩
  · intro fs p request hsrc hfs
    have hcf : create_file_part fs request.file.source
        = Except.error (OpenAIError.IOError p) := by
      rw [hsrc]; simp [create_file_part, hfs]
    exact transcription_tryIntoForm_error fs request _ hcf
  · intro fs p request hsrc hfs
    have hcf : create_file_part fs request.file.source
        = Except.error (OpenAIError.IOError p) := by
      rw [hsrc]; simp [create_file_part, hfs]
    exact translation_tryIntoForm_error fs request _ hcf
  · intro fs p request hsrc hfs
    have hcf : create_file_part fs request.file.source
        = Except.error (OpenAIError.IOError p) := by
      rw [hsrc]; simp [create_file_part, hfs]
    exact create_file_tryIntoForm_error fs request _ hcf
  · intro fs p request hsrc hfs
    have hcf : create_file_part fs request.image.source
        = Except.error (OpenAIError.IOError p) := by
      rw [hsrc]; simp [create_file_part, hfs]
    exact image_variation_tryIntoForm_error fs request _ hcf
  · intro fs p request hsrc hfs
    have hcf : create_file_part fs request.image.source
        = Except.error (OpenAIError.IOError p) := by
      rw [hsrc]; simp [create_file_part, hfs]
    exact image_edit_tryIntoForm_error fs request _ hcf
  · intro fs p request mask ip hip hm hsrc hfs
    have hcf : create_file_part fs mask.source = Except.error (OpenAIError.IOError p) := by
      rw [hsrc]; simp [create_file_part, hfs]
    exact image_edit_tryIntoForm_mask_error fs request ip mask _ hip hm hcf

/-- Witness for C6: a transcription request whose audio source is the missing path
`a.mp3` fails with the `IO` error, and the pipeline performs no network event. -/
theorem multipart_io_error_before_network_witness :
    (CreateTranscriptionRequest.mk ⟨InputSource.Path "a.mp3"⟩ "whisper-1"
        none none none none none).file.source = InputSource.Path "a.mp3"
    ∧ (fun (_ : String) => (none : Option (List Nat))) "a.mp3" = none
    ∧ (CreateTranscriptionRequest.mk ⟨InputSource.Path "a.mp3"⟩ "whisper-1"
        none none none none none).tryIntoForm (fun _ => none)
        = Except.error (OpenAIError.IOError "a.mp3")
    ∧ sendMultipart (Except.error (OpenAIError.IOError "a.mp3"))
        = (Except.error (OpenAIError.IOError "a.mp3"), []) :=
  ⟨rfl, rfl,
    multipart_io_error_before_network.1 (fun _ => none) "a.mp3"
      (CreateTranscriptionRequest.mk ⟨InputSource.Path "a.mp3"⟩ "whisper-1"
        none none none none none) rfl rfl,
    multipart_io_error_before_network.2.2.2.2.2.2 (OpenAIError.IOError "a.mp3")⟩

end AsyncOpenAI
